import Mathlib

/-!
Verification development for the order-processing core of the
`savannah-technical-interview` repository.

The Go source is embedded shallowly:

* money amounts (`github.com/shopspring/decimal`, an exact decimal type whose
  `Add`/`Mul` are exact) are modelled as `ℚ`;
* Go `int` is modelled as `ℤ`;
* UUIDs are modelled as `Nat` identifiers supplied by the caller;
* each SQL table is a Lean list; a SQL transaction is modelled by returning
  the would-be table value and discarding it when the transaction is not
  committed;
* the inventory service (`Inventory/service.go`, i.e. `src/unnamed/part_004`)
  opens and commits *its own* transaction per `Reserve`/`Release` call, so its
  effects are applied to the system state immediately and independently of the
  caller's transaction — this is reflected by threading the inventory state
  through the orchestrator separately from the orders transaction.
-/

namespace Savannah

/-- Product identifier (Go `uuid.UUID`, modelled as `Nat`). -/
abbrev ProductID := Nat

/-- An inventory row key: `(product_id, warehouse)` (unique key of the
`inventory` table). -/
abbrev InvKey := ProductID × String

/-- The mutable columns of an `inventory` row (`Inventory/model.go`):
`quantity` (total on hand) and `reserved`. Go `int` becomes `ℤ`. -/
structure InvRow where
  quantity : Int
  reserved : Int
deriving DecidableEq, Repr

/-- A `stock_transactions` ledger row (`Inventory/model.go`,
`StockTransaction`): which inventory row, the signed change, and the reason
code. -/
structure LedgerEntry where
  key : InvKey
  change : Int
  reason : String
deriving DecidableEq, Repr

/-- The persistent state owned by the inventory engine: the `inventory` table
(association list keyed by `(product, warehouse)`) and the append-only
`stock_transactions` ledger. -/
structure InvState where
  rows : List (InvKey × InvRow)
  ledger : List LedgerEntry
deriving DecidableEq, Repr

/-- SQL `SELECT ... FROM inventory WHERE product_id=$1 AND warehouse=$2`:
first row matching the key. -/
def lookupRow (rows : List (InvKey × InvRow)) (k : InvKey) : Option InvRow :=
  (rows.find? (fun p => decide (p.1 = k))).map (fun p => p.2)

/-- SQL `UPDATE inventory SET ... WHERE id=$3`: replace the row(s) with the given
key (the key is unique in the table, mirroring the SQL unique constraint). -/
def updateRow (rows : List (InvKey × InvRow)) (k : InvKey) (r : InvRow) :
    List (InvKey × InvRow) :=
  rows.map (fun p => if p.1 = k then (k, r) else p)

/-- Error outcomes of the inventory engine (`Inventory/service.go`):
`rowNotFound` is `sql.ErrNoRows` from the `SELECT ... FOR UPDATE`,
`insufficientStock` is `errors.New("insufficient stock")`, and
`releaseExceedsReserved` is
`errors.New("release quantity exceeds reserved")`. -/
inductive InvErr where
  | rowNotFound
  | insufficientStock
  | releaseExceedsReserved
deriving DecidableEq, Repr

/-- Go `service.Reserve` from `Inventory/service.go` (`src/unnamed/part_004`,
lines 29–60): in a fresh transaction, lock and read the row, compute
`available = quantity - reserved`; if `available < qty` fail (the transaction
rolls back, writing nothing); otherwise write `reserved += qty`, append one
ledger entry with change `-qty` and reason `"reserve"`, and commit. An error
result means the transaction was rolled back, so the caller's state is
unchanged. -/
def Reserve (st : InvState) (productID : ProductID) (qty : Int)
    (warehouse : String) : Except InvErr InvState :=
  let k : InvKey := (productID, warehouse)
  match lookupRow st.rows k with
  | none => .error .rowNotFound
  | some inv =>
    let available := inv.quantity - inv.reserved
    if available < qty then
      .error .insufficientStock
    else
      .ok { rows := updateRow st.rows k { inv with reserved := inv.reserved + qty }
            ledger := st.ledger ++ [{ key := k, change := -qty, reason := "reserve" }] }

/-- Go `service.Release` from `Inventory/service.go` (`src/unnamed/part_004`,
lines 62–91): in a fresh transaction, lock and read the row; if
`reserved < qty` fail (rollback, nothing written); otherwise write
`reserved -= qty`, append one ledger entry with change `+qty` and reason
`"release"`, and commit. -/
def Release (st : InvState) (productID : ProductID) (qty : Int)
    (warehouse : String) : Except InvErr InvState :=
  let k : InvKey := (productID, warehouse)
  match lookupRow st.rows k with
  | none => .error .rowNotFound
  | some inv =>
    if inv.reserved < qty then
      .error .releaseExceedsReserved
    else
      .ok { rows := updateRow st.rows k { inv with reserved := inv.reserved - qty }
            ledger := st.ledger ++ [{ key := k, change := qty, reason := "release" }] }

/- Lemmas about row lookup and update. -/

theorem lookupRow_updateRow_self {rows : List (InvKey × InvRow)} {k : InvKey}
    {row : InvRow} (r : InvRow) (h : lookupRow rows k = some row) :
    lookupRow (updateRow rows k r) k = some r := by
  induction rows with
  | nil => simp [lookupRow] at h
  | cons p rest ih =>
    by_cases hk : p.1 = k
    · simp [lookupRow, updateRow, List.find?, hk]
    · simp only [lookupRow, updateRow, List.map_cons, List.find?, if_neg hk] at *
      rw [decide_eq_false hk] at *
      exact ih h

theorem lookupRow_updateRow_other {rows : List (InvKey × InvRow)} {k k' : InvKey}
    (r : InvRow) (h : k' ≠ k) :
    lookupRow (updateRow rows k r) k' = lookupRow rows k' := by
  induction rows with
  | nil => simp [lookupRow, updateRow]
  | cons p rest ih =>
    by_cases hk : p.1 = k
    · have hne : ¬ ((k, r).1 = k') := by simpa using fun hc => h hc.symm
      simp only [lookupRow, updateRow, List.map_cons, List.find?, if_pos hk]
      rw [decide_eq_false hne, decide_eq_false (by rw [hk]; exact fun hc => h hc.symm)]
      exact ih
    · simp only [lookupRow, updateRow, List.map_cons, List.find?, if_neg hk]
      by_cases hk' : p.1 = k'
      · rw [decide_eq_true hk']
      · rw [decide_eq_false hk']
        exact ih

/-- C3: `Reserve` computes `available = quantity - reserved`; when
`available < qty` it fails with the insufficient-stock error (and, the
transaction being rolled back, writes nothing); otherwise it succeeds,
incrementing `reserved` by exactly `qty`, leaving `quantity` and every other
row unchanged, and appending exactly one ledger entry with change `-qty` and
reason `"reserve"`. -/
theorem reserve_contract (st : InvState) (p : ProductID) (wh : String)
    (qty : Int) (row : InvRow) (h : lookupRow st.rows (p, wh) = some row) :
    (row.quantity - row.reserved < qty →
      Reserve st p qty wh = .error .insufficientStock) ∧
    (¬ row.quantity - row.reserved < qty →
      ∃ st', Reserve st p qty wh = .ok st' ∧
        lookupRow st'.rows (p, wh) =
          some { quantity := row.quantity, reserved := row.reserved + qty } ∧
        (∀ k, k ≠ (p, wh) → lookupRow st'.rows k = lookupRow st.rows k) ∧
        st'.ledger = st.ledger ++
          [{ key := (p, wh), change := -qty, reason := "reserve" }]) := by
  constructor
  · intro hlt
    simp [Reserve, h, hlt]
  · intro hge
    refine ⟨{ rows := updateRow st.rows (p, wh) { row with reserved := row.reserved + qty }
              ledger := st.ledger ++
                [{ key := (p, wh), change := -qty, reason := "reserve" }] },
      ?_, ?_, ?_, ?_⟩
    · simp [Reserve, h, hge]
    · exact lookupRow_updateRow_self _ h
    · intro k hk
      exact lookupRow_updateRow_other _ hk
    · rfl

/-- Witness for `reserve_contract`: a concrete row with `quantity = 5`,
`reserved = 1`; reserving 2 succeeds and reserving 5 would fail. -/
theorem reserve_contract_witness :
    (lookupRow [((1, "WH1"), ⟨5, 1⟩)] (1, "WH1") = some ⟨5, 1⟩) ∧
    ((5 - 1 < (5 : Int) →
      Reserve ⟨[((1, "WH1"), ⟨5, 1⟩)], []⟩ 1 5 "WH1" = .error .insufficientStock) ∧
     (¬ 5 - 1 < (5 : Int) →
      ∃ st', Reserve ⟨[((1, "WH1"), ⟨5, 1⟩)], []⟩ 1 5 "WH1" = .ok st' ∧
        lookupRow st'.rows (1, "WH1") = some { quantity := 5, reserved := 1 + 5 } ∧
        (∀ k, k ≠ (1, "WH1") →
          lookupRow st'.rows k = lookupRow [((1, "WH1"), ⟨5, 1⟩)] k) ∧
        st'.ledger = [] ++ [{ key := (1, "WH1"), change := -5, reason := "reserve" }])) :=
  ⟨by decide, reserve_contract ⟨[((1, "WH1"), ⟨5, 1⟩)], []⟩ 1 "WH1" 5 ⟨5, 1⟩ (by decide)⟩

/-- C4: `Release` fails with the release-exceeds-reserved error exactly when
`reserved < qty` (the transaction rolls back, so the row and ledger are
unchanged); otherwise it succeeds, decrementing `reserved` by exactly `qty`,
leaving `quantity` and every other row unchanged, and appending exactly one
ledger entry with change `+qty` and reason `"release"`. -/
theorem release_contract (st : InvState) (p : ProductID) (wh : String)
    (qty : Int) (row : InvRow) (h : lookupRow st.rows (p, wh) = some row) :
    (row.reserved < qty →
      Release st p qty wh = .error .releaseExceedsReserved) ∧
    (¬ row.reserved < qty →
      ∃ st', Release st p qty wh = .ok st' ∧
        lookupRow st'.rows (p, wh) =
          some { quantity := row.quantity, reserved := row.reserved - qty } ∧
        (∀ k, k ≠ (p, wh) → lookupRow st'.rows k = lookupRow st.rows k) ∧
        st'.ledger = st.ledger ++
          [{ key := (p, wh), change := qty, reason := "release" }]) := by
  constructor
  · intro hlt
    simp [Release, h, hlt]
  · intro hge
    refine ⟨{ rows := updateRow st.rows (p, wh) { row with reserved := row.reserved - qty }
              ledger := st.ledger ++
                [{ key := (p, wh), change := qty, reason := "release" }] },
      ?_, ?_, ?_, ?_⟩
    · simp [Release, h, hge]
    · exact lookupRow_updateRow_self _ h
    · intro k hk
      exact lookupRow_updateRow_other _ hk
    · rfl

/-- Witness for `release_contract`: a concrete row with `reserved = 2`;
releasing 2 succeeds and releasing 3 would fail. -/
theorem release_contract_witness :
    (lookupRow [((7, "WH1"), ⟨5, 2⟩)] (7, "WH1") = some ⟨5, 2⟩) ∧
    ((2 < (2 : Int) →
      Release ⟨[((7, "WH1"), ⟨5, 2⟩)], []⟩ 7 2 "WH1" = .error .releaseExceedsReserved) ∧
     (¬ 2 < (2 : Int) →
      ∃ st', Release ⟨[((7, "WH1"), ⟨5, 2⟩)], []⟩ 7 2 "WH1" = .ok st' ∧
        lookupRow st'.rows (7, "WH1") = some { quantity := 5, reserved := 2 - 2 } ∧
        (∀ k, k ≠ (7, "WH1") →
          lookupRow st'.rows k = lookupRow [((7, "WH1"), ⟨5, 2⟩)] k) ∧
        st'.ledger = [] ++ [{ key := (7, "WH1"), change := 2, reason := "release" }])) :=
  ⟨by decide, release_contract ⟨[((7, "WH1"), ⟨5, 2⟩)], []⟩ 7 "WH1" 2 ⟨5, 2⟩ (by decide)⟩

/-! ## Orders: model and status machine (`src/unnamed/part_005`) -/

/-- Status constants from `Orders` model (`src/unnamed/part_005`, lines 76–84). -/
def StatusCreated : String := "CREATED"

def StatusPending : String := "PENDING"

def StatusProcessing : String := "PROCESSING"

def StatusShipped : String := "SHIPPED"

def StatusDelivered : String := "DELIVERED"

def StatusCancelled : String := "CANCELLED"

def StatusRefunded : String := "REFUNDED"

/-- An `orders` table row (`model.Order`, `src/unnamed/part_005`). Money is
`ℚ`, timestamps are abstract `Nat` ticks, the UUID is a `Nat`. Fields not
involved in any claim (soft-delete timestamp, metadata, addresses) are
omitted. -/
structure Order where
  id : Nat
  customerID : Option Nat := none
  status : String
  subtotal : ℚ := 0
  tax : ℚ := 0
  shipping : ℚ := 0
  total : ℚ := 0
  currency : String := "USD"
  warehouse : String := ""
  version : Int := 1
  createdAt : Nat := 0
  updatedAt : Nat := 0
deriving DecidableEq, Repr

/-- The `ValidStatusTransitions` map (`src/unnamed/part_005`, lines 86–95). -/
def ValidStatusTransitions : List (String × List String) :=
  [(StatusCreated, [StatusPending, StatusCancelled]),
   (StatusPending, [StatusProcessing, StatusCancelled]),
   (StatusProcessing, [StatusShipped, StatusCancelled]),
   (StatusShipped, [StatusDelivered, StatusRefunded]),
   (StatusDelivered, [StatusRefunded]),
   (StatusCancelled, []),
   (StatusRefunded, [])]

/-- Go `Order.CanTransitionTo` (`src/unnamed/part_005`, lines 107–118): look the
current status up in `ValidStatusTransitions` (missing key → false), then scan
the allowed-target list. Stated on the status string; the Go method reads
`o.Status`. -/
def CanTransitionTo (status newStatus : String) : Bool :=
  match ValidStatusTransitions.find? (fun p => decide (p.1 = status)) with
  | none => false
  | some p => p.2.contains newStatus

/-- Go `Order.IsCancellable` (`src/unnamed/part_005`, lines 120–123). -/
def IsCancellable (status : String) : Bool :=
  decide (status = StatusCreated) || decide (status = StatusPending) ||
    decide (status = StatusProcessing)

/-- Go `Order.IsRefundable` (`src/unnamed/part_005`, lines 125–128). -/
def IsRefundable (status : String) : Bool :=
  decide (status = StatusDelivered) || decide (status = StatusShipped)

/-- SQL `SELECT ... FROM orders WHERE id=$1`: first row with the given id (the id
is the primary key). -/
def getOrderRow (orders : List Order) (id : Nat) : Option Order :=
  orders.find? (fun o => decide (o.id = id))

/-- The only error `repository.UpdateOrderStatusTx` produces besides driver
failures: `fmt.Errorf("version conflict")` when zero rows were affected. -/
inductive TxErr where
  | versionConflict
deriving DecidableEq, Repr

/-- Go `repository.UpdateOrderStatusTx` (`src/src/Orders/model.go`, lines
94–104): `UPDATE orders SET status=$1, version=version+1, updated_at=NOW()
WHERE id=$2 AND version=$3`; if zero rows were affected, return the
version-conflict error (the caller then rolls the transaction back, so an
error result leaves the table unchanged). -/
def UpdateOrderStatusTx (orders : List Order) (id : Nat) (status : String)
    (version : Int) (now : Nat) : Except TxErr (List Order) :=
  let updated := orders.map (fun o =>
    if o.id = id ∧ o.version = version then
      { o with status := status, version := o.version + 1, updatedAt := now }
    else o)
  let affected := orders.countP (fun o => decide (o.id = id ∧ o.version = version))
  if affected = 0 then .error .versionConflict else .ok updated

/-- Error outcomes of the order service
(`src/src/Orders/internal/service/errors.go`). The item index in
`missingProductOrSKU` mirrors `fmt.Errorf("item %d must have either
product_id or sku", i)`. -/
inductive OrdersErr where
  | emptyOrderItems
  | invalidWarehouse
  | invalidQuantity
  | invalidPrice
  | missingProductOrSKU (i : Nat)
  | insufficientInventory
  | paymentFailed
  | orderNotFound
  | invalidStatusTransition (fromStatus toStatus : String)
  | versionConflict
  | cannotCancelOrder
deriving DecidableEq, Repr

/-- Go `service.UpdateOrderStatus` (`src/src/Orders/internal/service/service.go`,
lines 212–252): fetch the order (missing → not-found), reject the transition
when `CanTransitionTo` fails, else run the guarded write in a transaction;
the tx error whose text contains "version conflict" is surfaced as
`ErrVersionConflict`, and the transaction is only committed on success, so an
error result leaves the table unchanged. -/
def UpdateOrderStatus (orders : List Order) (id : Nat) (status : String)
    (version : Int) (now : Nat) : Except OrdersErr Unit × List Order :=
  match getOrderRow orders id with
  | none => (.error .orderNotFound, orders)
  | some o =>
    if ! CanTransitionTo o.status status then
      (.error (.invalidStatusTransition o.status status), orders)
    else
      match UpdateOrderStatusTx orders id status version now with
      | .error _ => (.error .versionConflict, orders)
      | .ok orders' => (.ok (), orders')

/- Lemmas about order lookup. -/

theorem getOrderRow_mem {orders : List Order} {id : Nat} {o : Order}
    (h : getOrderRow orders id = some o) : o ∈ orders ∧ o.id = id := by
  unfold getOrderRow at h
  have h1 := List.mem_of_find?_eq_some h
  have h2 := List.find?_some h
  exact ⟨h1, of_decide_eq_true h2⟩

theorem getOrderRow_map (orders : List Order) (f : Order → Order)
    (hf : ∀ o, (f o).id = o.id) (id : Nat) :
    getOrderRow (orders.map f) id = (getOrderRow orders id).map f := by
  unfold getOrderRow
  rw [List.find?_map]
  have hp : ((fun o => decide (o.id = id)) ∘ f) = (fun o => decide (o.id = id)) := by
    funext o
    simp [Function.comp, hf]
  rw [hp]

/-- With the primary key unique, two rows sharing an id are the same row. -/
theorem eq_of_nodup_ids {orders : List Order}
    (hnd : (orders.map Order.id).Nodup) {a b : Order}
    (ha : a ∈ orders) (hb : b ∈ orders) (h : a.id = b.id) : a = b :=
  List.inj_on_of_nodup_map hnd ha hb h

/-- C5: the guarded status write, as invoked through `UpdateOrderStatus`,
updates an order only when the caller-supplied version equals the stored one:
on a match the write succeeds, the stored version increases by exactly one
(status and `updated_at` are set, every other row untouched); on a mismatch
zero rows are affected, `VersionConflict` is returned and the table — hence
every field of the order — is unchanged. The `Nodup` hypothesis is the
primary-key constraint of the `orders` table. -/
theorem guarded_status_write (orders : List Order) (id : Nat) (status : String)
    (version : Int) (now : Nat) (o : Order)
    (hnd : (orders.map Order.id).Nodup)
    (hget : getOrderRow orders id = some o)
    (hcan : CanTransitionTo o.status status = true) :
    (o.version = version →
      ∃ orders', UpdateOrderStatus orders id status version now = (.ok (), orders') ∧
        getOrderRow orders' id =
          some { o with status := status, version := o.version + 1, updatedAt := now } ∧
        ∀ id', id' ≠ id → getOrderRow orders' id' = getOrderRow orders id') ∧
    (o.version ≠ version →
      UpdateOrderStatus orders id status version now =
        (.error .versionConflict, orders)) := by
  obtain ⟨hmem, hid⟩ := getOrderRow_mem hget
  have hfid : ∀ x : Order,
      ((fun x : Order => if x.id = id ∧ x.version = version then
          { x with status := status, version := x.version + 1, updatedAt := now }
        else x) x).id = x.id := by
    intro x
    dsimp only
    split <;> rfl
  constructor
  · intro hver
    have haff : ¬ orders.countP (fun x => decide (x.id = id ∧ x.version = version)) = 0 := by
      have : 0 < orders.countP (fun x => decide (x.id = id ∧ x.version = version)) :=
        List.countP_pos_iff.mpr ⟨o, hmem, decide_eq_true ⟨hid, hver⟩⟩
      omega
    have htx : UpdateOrderStatusTx orders id status version now =
        .ok (orders.map (fun x =>
          if x.id = id ∧ x.version = version then
            { x with status := status, version := x.version + 1, updatedAt := now }
          else x)) := by
      simp only [UpdateOrderStatusTx]
      rw [if_neg haff]
    refine ⟨(orders.map (fun x =>
        if x.id = id ∧ x.version = version then
          { x with status := status, version := x.version + 1, updatedAt := now }
        else x)), ?_, ?_, ?_⟩
    · simp [UpdateOrderStatus, hget, hcan, htx]
    · rw [getOrderRow_map _ _ hfid, hget]
      simp [hid, hver]
    · intro id' hne
      rw [getOrderRow_map _ _ hfid]
      cases hfind : getOrderRow orders id' with
      | none => rfl
      | some x =>
        obtain ⟨-, hxid⟩ := getOrderRow_mem hfind
        have hnc : ¬ (x.id = id ∧ x.version = version) := fun hc => hne (hxid ▸ hc.1)
        simp [hnc]
  · intro hver
    have haff : orders.countP (fun x => decide (x.id = id ∧ x.version = version)) = 0 := by
      rw [List.countP_eq_zero]
      intro x hx hpx
      obtain ⟨hxid, hxver⟩ := of_decide_eq_true hpx
      have hxo : x = o := eq_of_nodup_ids hnd hx hmem (hxid.trans hid.symm)
      exact hver (hxo ▸ hxver)
    have htx : UpdateOrderStatusTx orders id status version now = .error .versionConflict := by
      simp only [UpdateOrderStatusTx]
      rw [if_pos haff]
    simp [UpdateOrderStatus, hget, hcan, htx]

/-- Witness for `guarded_status_write`: one CREATED order at version 1; the
write to PENDING with version 1 succeeds and bumps the version to 2, while
version 2 would conflict. -/
theorem guarded_status_write_witness :
    (([({ id := 1, status := "CREATED", version := 1 } : Order)].map Order.id).Nodup ∧
     getOrderRow [{ id := 1, status := "CREATED", version := 1 }] 1 =
       some { id := 1, status := "CREATED", version := 1 } ∧
     CanTransitionTo "CREATED" "PENDING" = true) ∧
    (((1 : Int) = 1 →
      ∃ orders', UpdateOrderStatus [{ id := 1, status := "CREATED", version := 1 }] 1
          "PENDING" 1 9 = (.ok (), orders') ∧
        getOrderRow orders' 1 =
          some { ({ id := 1, status := "CREATED", version := 1 } : Order) with
                   status := "PENDING", version := 1 + 1, updatedAt := 9 } ∧
        ∀ id', id' ≠ 1 → getOrderRow orders' id' =
          getOrderRow [{ id := 1, status := "CREATED", version := 1 }] id') ∧
     ((1 : Int) ≠ 1 →
      UpdateOrderStatus [{ id := 1, status := "CREATED", version := 1 }] 1 "PENDING" 1 9 =
        (.error .versionConflict, [{ id := 1, status := "CREATED", version := 1 }]))) :=
  ⟨⟨by decide, by decide, by decide⟩,
   guarded_status_write [{ id := 1, status := "CREATED", version := 1 }] 1 "PENDING" 1 9
     { id := 1, status := "CREATED", version := 1 } (by decide) (by decide) (by decide)⟩

/-- The transition pairs exactly as the spec lists them (spec §4.1); used to
compare the code's `CanTransitionTo` against the spec's table. -/
def specAllowedTransitionPairs : List (String × String) :=
  [("CREATED", "PENDING"), ("CREATED", "CANCELLED"),
   ("PENDING", "PROCESSING"), ("PENDING", "CANCELLED"),
   ("PROCESSING", "SHIPPED"), ("PROCESSING", "CANCELLED"),
   ("SHIPPED", "DELIVERED"), ("SHIPPED", "REFUNDED"),
   ("DELIVERED", "REFUNDED")]

/-- C6: `CanTransitionTo` is exactly the fixed table of spec §4.1 (for every
pair of strings, it accepts iff the pair is among the nine allowed
transitions — in particular `CANCELLED` and `REFUNDED` allow nothing and an
unknown source status allows nothing); every `(from, to)` pair it rejects
makes `UpdateOrderStatus` fail with `InvalidStatusTransition` for every
supplied version; and in particular updating a `CANCELLED` order to
`PROCESSING` fails that way regardless of version. -/
theorem status_transition_table :
    (∀ f t, CanTransitionTo f t = true ↔ (f, t) ∈ specAllowedTransitionPairs) ∧
    (∀ orders id t version now o, getOrderRow orders id = some o →
      CanTransitionTo o.status t = false →
      UpdateOrderStatus orders id t version now =
        (.error (.invalidStatusTransition o.status t), orders)) ∧
    (∀ orders id version now o, getOrderRow orders id = some o →
      o.status = "CANCELLED" →
      UpdateOrderStatus orders id "PROCESSING" version now =
        (.error (.invalidStatusTransition o.status "PROCESSING"), orders)) := by
  refine ⟨?_, ?_, ?_⟩
  · intro f t
    by_cases h1 : f = "CREATED"
    · subst h1
      show (["PENDING", "CANCELLED"] : List String).contains t = true ↔ _
      simp [List.contains, specAllowedTransitionPairs]
    · by_cases h2 : f = "PENDING"
      · subst h2
        show (["PROCESSING", "CANCELLED"] : List String).contains t = true ↔ _
        simp [List.contains, specAllowedTransitionPairs]
      · by_cases h3 : f = "PROCESSING"
        · subst h3
          show (["SHIPPED", "CANCELLED"] : List String).contains t = true ↔ _
          simp [List.contains, specAllowedTransitionPairs]
        · by_cases h4 : f = "SHIPPED"
          · subst h4
            show (["DELIVERED", "REFUNDED"] : List String).contains t = true ↔ _
            simp [List.contains, specAllowedTransitionPairs]
          · by_cases h5 : f = "DELIVERED"
            · subst h5
              show (["REFUNDED"] : List String).contains t = true ↔ _
              simp [List.contains, specAllowedTransitionPairs]
            · by_cases h6 : f = "CANCELLED"
              · subst h6
                show ([] : List String).contains t = true ↔ _
                simp [List.contains, specAllowedTransitionPairs]
              · by_cases h7 : f = "REFUNDED"
                · subst h7
                  show ([] : List String).contains t = true ↔ _
                  simp [List.contains, specAllowedTransitionPairs]
                · have hfind : CanTransitionTo f t = false := by
                    unfold CanTransitionTo ValidStatusTransitions
                    unfold StatusCreated StatusPending StatusProcessing StatusShipped
                    unfold StatusDelivered StatusCancelled StatusRefunded
                    simp only [List.find?]
                    rw [decide_eq_false (fun hc => h1 hc.symm),
                        decide_eq_false (fun hc => h2 hc.symm),
                        decide_eq_false (fun hc => h3 hc.symm),
                        decide_eq_false (fun hc => h4 hc.symm),
                        decide_eq_false (fun hc => h5 hc.symm),
                        decide_eq_false (fun hc => h6 hc.symm),
                        decide_eq_false (fun hc => h7 hc.symm)]
                  rw [hfind]
                  simp [specAllowedTransitionPairs, h1, h2, h3, h4, h5]
  · intro orders id t version now o hget hcan
    simp [UpdateOrderStatus, hget, hcan]
  · intro orders id version now o hget hst
    have hcan : CanTransitionTo o.status "PROCESSING" = false := by
      rw [hst]; decide
    simp [UpdateOrderStatus, hget, hcan]

/-- Witness for `status_transition_table` (second and third parts have
hypotheses): a concrete CANCELLED order at any stored version; the update to
PROCESSING is rejected as an invalid transition. -/
theorem status_transition_table_witness :
    (getOrderRow [{ id := 4, status := "CANCELLED", version := 3 }] 4 =
       some { id := 4, status := "CANCELLED", version := 3 } ∧
     CanTransitionTo "CANCELLED" "PROCESSING" = false ∧
     ({ id := 4, status := "CANCELLED", version := 3 } : Order).status = "CANCELLED") ∧
    (CanTransitionTo "CANCELLED" "PROCESSING" = true ↔
      (("CANCELLED", "PROCESSING") ∈ specAllowedTransitionPairs)) ∧
    UpdateOrderStatus [{ id := 4, status := "CANCELLED", version := 3 }] 4
        "PROCESSING" 3 7 =
      (.error (.invalidStatusTransition "CANCELLED" "PROCESSING"),
       [{ id := 4, status := "CANCELLED", version := 3 }]) :=
  ⟨⟨by decide, by decide, by decide⟩,
   status_transition_table.1 "CANCELLED" "PROCESSING",
   status_transition_table.2.2 [{ id := 4, status := "CANCELLED", version := 3 }] 4 3 7
     { id := 4, status := "CANCELLED", version := 3 } (by decide) (by decide)⟩

/-! ## Order creation orchestrator
(`src/src/Orders/internal/service/service.go`) -/

/-- Go `model.CreateOrderItem` (`src/unnamed/part_007`). -/
structure CreateOrderItem where
  productID : Option ProductID := none
  sku : Option String := none
  name : Option String := none
  unitPrice : ℚ
  quantity : Int
deriving DecidableEq, Repr

/-- Go `model.CreateOrderRequest` (`src/unnamed/part_007`). Addresses are not
modelled (no claim concerns them). -/
structure CreateOrderRequest where
  customerID : Option Nat := none
  items : List CreateOrderItem
  warehouse : String
  currency : String
  metadata : List (String × String) := []
deriving DecidableEq, Repr

/-- A persisted `order_items` row (`model.OrderItem`, `src/unnamed/part_005`).
Row UUIDs are irrelevant to every claim and fixed to 0. -/
structure OrderItem where
  id : Nat := 0
  orderID : Nat := 0
  productID : Option ProductID := none
  sku : Option String := none
  name : Option String := none
  unitPrice : ℚ
  quantity : Int
  lineTotal : ℚ
  version : Int := 1
deriving DecidableEq, Repr

/-- The per-item validation loop inside `service.validateOrderData`
(`service.go` lines 511–521), carrying the item index for the
missing-product-or-SKU error. -/
def validateItems : List CreateOrderItem → Nat → Except OrdersErr Unit
  | [], _ => .ok ()
  | item :: rest, i =>
    if item.quantity ≤ 0 then .error .invalidQuantity
    else if item.unitPrice ≤ 0 then .error .invalidPrice
    else if item.productID = none ∧ (item.sku = none ∨ item.sku = some "") then
      .error (.missingProductOrSKU i)
    else validateItems rest (i + 1)

/-- Go `service.validateOrderData` (`service.go` lines 501–523): empty item list
rejected first; an empty currency is then silently replaced by `"USD"` (the Go
code mutates `req.Currency` in place — modelled by returning the updated
request); empty warehouse rejected; then the per-item loop. -/
def validateOrderData (req : CreateOrderRequest) : Except OrdersErr CreateOrderRequest :=
  if req.items.length = 0 then .error .emptyOrderItems
  else
    let req := if req.currency = "" then { req with currency := "USD" } else req
    if req.warehouse = "" then .error .invalidWarehouse
    else
      match validateItems req.items 0 with
      | .error e => .error e
      | .ok _ => .ok req

/-- Go `service.processOrderItems` (`service.go` lines 526–543): convert each
request item to a persisted-shape item with
`lineTotal = unitPrice * quantity` and version 1, and accumulate the subtotal
starting from `decimal.NewFromInt(0)`. -/
def processOrderItems (items : List CreateOrderItem) : List OrderItem × ℚ :=
  (items.map (fun item =>
    { productID := item.productID, sku := item.sku, name := item.name,
      unitPrice := item.unitPrice, quantity := item.quantity,
      lineTotal := item.unitPrice * (item.quantity : ℚ), version := 1 }),
   items.foldl (fun subtotal item => subtotal + item.unitPrice * (item.quantity : ℚ)) 0)

/-- Go `service.calculateTax` (`service.go` lines 546–551). The collaborator is
either absent (Go `nil`, giving the built-in `subtotal * 0.08`;
`decimal.NewFromFloat(0.08)` is exactly `8/100`) or present and returning a
value or an error. -/
def calculateTax (taxCalc : Option (Except Unit ℚ)) (subtotal : ℚ) : Except Unit ℚ :=
  match taxCalc with
  | some result => result
  | none => .ok (subtotal * (8 / 100))

/-- Go `service.calculateShipping` (`service.go` lines 554–559);
`decimal.NewFromFloat(9.99)` is exactly `999/100`. -/
def calculateShipping (shippingCalc : Option (Except Unit ℚ)) : Except Unit ℚ :=
  match shippingCalc with
  | some result => result
  | none => .ok (999 / 100)

/-- The inventory-reservation loop of `service.CreateOrder` (`service.go`
lines 126–138). Each `Reserve` call runs and commits in the inventory
service's own transaction, so its effect survives regardless of what the
orchestrator does next; the loop therefore returns the inventory state
reached so far together with the error, and on the first failure it surfaces
`ErrInsufficientInventory` *without* releasing the earlier reservations (the
Go loop body has no compensation). Items without a product reference are
skipped. -/
def reserveItems (inv : InvState) (warehouse : String) :
    List OrderItem → InvState × Option OrdersErr
  | [] => (inv, none)
  | item :: rest =>
    match item.productID with
    | none => reserveItems inv warehouse rest
    | some pid =>
      match Reserve inv pid item.quantity warehouse with
      | .error _ => (inv, some .insufficientInventory)
      | .ok inv2 => reserveItems inv2 warehouse rest

/-- The persistent state the order service touches: the inventory engine's
state plus the `orders` and `order_items` tables. -/
structure SysState where
  inv : InvState
  orders : List Order
  orderItems : List OrderItem
deriving DecidableEq, Repr

/-- Go `service.CreateOrder` (`service.go` lines 69–165). Collaborators are
modelled by their outcome: `taxCalc`/`shippingCalc` as in `calculateTax`/
`calculateShipping` (a collaborator error falls back to `subtotal * 8/100`
resp. `999/100`, `service.go` lines 87–98); `payment = none` is a `nil`
payment service, `some b` a service whose `ProcessPayment` succeeds iff `b`.
`newOrderID` stands for the `uuid.New()` drawn in `CreateOrderTx` and `now`
for the wall clock. The orchestrator's own transaction covers only the order
and item inserts, so on any error path after reservation the `orders` /
`order_items` tables are unchanged while the committed inventory effects
remain. -/
def CreateOrder (st : SysState) (req : CreateOrderRequest)
    (taxCalc shippingCalc : Option (Except Unit ℚ)) (payment : Option Bool)
    (newOrderID : Nat) (now : Nat) : Except OrdersErr Order × SysState :=
  match validateOrderData req with
  | .error e => (.error e, st)
  | .ok req' =>
    let pr := processOrderItems req'.items
    let orderItems := pr.1
    let subtotal := pr.2
    let tax := match calculateTax taxCalc subtotal with
      | .ok v => v
      | .error _ => subtotal * (8 / 100)
    let shipping := match calculateShipping shippingCalc with
      | .ok v => v
      | .error _ => 999 / 100
    let total := subtotal + tax + shipping
    let order : Order :=
      { id := newOrderID, customerID := req'.customerID,
        status := StatusCreated, subtotal := subtotal, tax := tax,
        shipping := shipping, total := total, currency := req'.currency,
        warehouse := req'.warehouse, version := 1, createdAt := now, updatedAt := now }
    match reserveItems st.inv req'.warehouse orderItems with
    | (inv', some e) => (.error e, { st with inv := inv' })
    | (inv', none) =>
      match payment with
      | some false => (.error .paymentFailed, { st with inv := inv' })
      | _ =>
        (.ok order,
         { inv := inv',
           orders := st.orders ++ [order],
           orderItems := st.orderItems ++
             orderItems.map (fun it => { it with orderID := newOrderID }) })

/- Helper lemmas about validation and the reservation loop. -/

theorem validateItems_ok {items : List CreateOrderItem} {i : Nat}
    (h : validateItems items i = .ok ()) :
    ∀ item ∈ items, ¬ item.quantity ≤ 0 ∧ ¬ item.unitPrice ≤ 0 ∧
      ¬ (item.productID = none ∧ (item.sku = none ∨ item.sku = some "")) := by
  induction items generalizing i with
  | nil =>
    intro item hm
    cases hm
  | cons a rest ih =>
    intro item hm
    unfold validateItems at h
    by_cases h1 : a.quantity ≤ 0
    · rw [if_pos h1] at h
      cases h
    · rw [if_neg h1] at h
      by_cases h2 : a.unitPrice ≤ 0
      · rw [if_pos h2] at h
        cases h
      · rw [if_neg h2] at h
        by_cases h3 : a.productID = none ∧ (a.sku = none ∨ a.sku = some "")
        · rw [if_pos h3] at h
          cases h
        · rw [if_neg h3] at h
          rcases List.mem_cons.mp hm with hea | hmr
          · exact hea ▸ ⟨h1, h2, h3⟩
          · exact ih h item hmr

theorem validateOrderData_ok {req req' : CreateOrderRequest}
    (h : validateOrderData req = .ok req') :
    req' = (if req.currency = "" then { req with currency := "USD" } else req) ∧
    req'.items = req.items ∧ req'.warehouse = req.warehouse ∧
    req.items.length ≠ 0 ∧ req.warehouse ≠ "" ∧
    validateItems req.items 0 = .ok () := by
  simp only [validateOrderData] at h
  by_cases hlen : req.items.length = 0
  · rw [if_pos hlen] at h
    cases h
  · rw [if_neg hlen] at h
    have hitems : (if req.currency = "" then { req with currency := "USD" } else req).items
        = req.items := by
      split <;> rfl
    have hwh : (if req.currency = "" then { req with currency := "USD" } else req).warehouse
        = req.warehouse := by
      split <;> rfl
    rw [hitems, hwh] at h
    by_cases hw : req.warehouse = ""
    · rw [if_pos hw] at h
      cases h
    · rw [if_neg hw] at h
      cases hv : validateItems req.items 0 with
      | error e =>
        rw [hv] at h
        cases h
      | ok u =>
        rw [hv] at h
        cases h
        exact ⟨rfl, hitems, hwh, hlen, hw, rfl⟩

theorem reserveItems_error {inv : InvState} {wh : String}
    {items : List OrderItem} {inv' : InvState} {e : OrdersErr}
    (h : reserveItems inv wh items = (inv', some e)) :
    e = .insufficientInventory := by
  induction items generalizing inv with
  | nil =>
    unfold reserveItems at h
    cases h
  | cons item rest ih =>
    unfold reserveItems at h
    split at h
    · exact ih h
    · split at h
      · cases h
        rfl
      · exact ih h

theorem foldl_add_eq_sum (g : CreateOrderItem → ℚ) (l : List CreateOrderItem) (a : ℚ) :
    l.foldl (fun acc it => acc + g it) a = a + (l.map g).sum := by
  induction l generalizing a with
  | nil => simp
  | cons x rest ih => simp [ih, add_assoc]

/-- Decidable equality for `Except`, so concrete runs of the embedded
operations can be checked by `decide`. -/
instance exceptDecEq {ε α : Type} [DecidableEq ε] [DecidableEq α] :
    DecidableEq (Except ε α) := fun x y =>
  match x, y with
  | .error a, .error b =>
    match decEq a b with
    | .isTrue h => .isTrue (h ▸ rfl)
    | .isFalse h => .isFalse (fun hc => h (by injection hc))
  | .error _, .ok _ => .isFalse (fun hc => Except.noConfusion hc)
  | .ok _, .error _ => .isFalse (fun hc => Except.noConfusion hc)
  | .ok a, .ok b =>
    match decEq a b with
    | .isTrue h => .isTrue (h ▸ rfl)
    | .isFalse h => .isFalse (fun hc => h (by injection hc))

/-- C1 (amended): when the reservation loop inside `CreateOrder` fails on
some item, the call returns `InsufficientInventory` and persists no order or
item row, but it does **not** release the reservations committed earlier in
the same request: the inventory is left exactly at the state the loop had
reached (`inv'`), not restored to the pre-call state. -/
theorem createOrder_reserve_failure_no_release
    (st : SysState) (req : CreateOrderRequest)
    (taxCalc shippingCalc : Option (Except Unit ℚ)) (payment : Option Bool)
    (newOrderID now : Nat) (req' : CreateOrderRequest) (inv' : InvState)
    (hval : validateOrderData req = .ok req')
    (hres : reserveItems st.inv req'.warehouse (processOrderItems req'.items).1 =
      (inv', some .insufficientInventory)) :
    CreateOrder st req taxCalc shippingCalc payment newOrderID now =
      (.error .insufficientInventory, { st with inv := inv' }) := by
  unfold CreateOrder
  rw [hval]
  dsimp only
  rw [hres]

/-- Concrete system state for the C1 counterexample: product 1 has ample
stock, product 2 has none. -/
def c1State : SysState :=
  { inv := { rows := [((1, "W"), { quantity := 5, reserved := 0 }),
                      ((2, "W"), { quantity := 0, reserved := 0 })],
             ledger := [] },
    orders := [], orderItems := [] }

/-- Concrete request for the C1 counterexample: two items; reserving the
first succeeds, reserving the second fails. -/
def c1Request : CreateOrderRequest :=
  { items := [{ productID := some 1, unitPrice := 1, quantity := 1 },
              { productID := some 2, unitPrice := 1, quantity := 1 }],
    warehouse := "W", currency := "USD" }

/-- C1 counterexample: `CreateOrder` fails with `InsufficientInventory`
after the first item was reserved, yet product 1's reserved count afterwards
is 1, not its pre-call value 0, and a `reserve` ledger entry remains — the
claimed compensating release does not happen. -/
theorem createOrder_unreleased_reservation_counterexample :
    (CreateOrder c1State c1Request none none none 9 0).1 =
      .error .insufficientInventory ∧
    lookupRow c1State.inv.rows (1, "W") = some { quantity := 5, reserved := 0 } ∧
    lookupRow (CreateOrder c1State c1Request none none none 9 0).2.inv.rows (1, "W") =
      some { quantity := 5, reserved := 1 } ∧
    (CreateOrder c1State c1Request none none none 9 0).2.inv.ledger =
      [{ key := (1, "W"), change := -1, reason := "reserve" }] := by
  refine ⟨?_, ?_, ?_, ?_⟩ <;> decide

/-- Witness for `createOrder_reserve_failure_no_release` at the concrete
C1 state. -/
theorem createOrder_reserve_failure_no_release_witness :
    (validateOrderData c1Request =
      .ok c1Request ∧
     reserveItems c1State.inv c1Request.warehouse
        (processOrderItems c1Request.items).1 =
      ({ rows := [((1, "W"), { quantity := 5, reserved := 1 }),
                  ((2, "W"), { quantity := 0, reserved := 0 })],
         ledger := [{ key := (1, "W"), change := -1, reason := "reserve" }] },
       some .insufficientInventory)) ∧
    CreateOrder c1State c1Request none none none 9 0 =
      (.error .insufficientInventory,
       { c1State with
           inv := { rows := [((1, "W"), { quantity := 5, reserved := 1 }),
                             ((2, "W"), { quantity := 0, reserved := 0 })],
                    ledger := [{ key := (1, "W"), change := -1,
                                 reason := "reserve" }] } }) :=
  ⟨⟨by decide, by decide⟩,
   createOrder_reserve_failure_no_release c1State c1Request none none none 9 0
     c1Request _ (by decide) (by decide)⟩

/-- C2 (amended): when the payment collaborator fails, `CreateOrder` returns
the payment error and the order/item rows are indeed not persisted (the
transaction is never committed), but the inventory reservations committed
earlier in the same call are **not** rolled back: the inventory keeps the
post-reservation state `inv'`, its new `reserve` ledger entries included. -/
theorem createOrder_payment_failure_keeps_reservations
    (st : SysState) (req : CreateOrderRequest)
    (taxCalc shippingCalc : Option (Except Unit ℚ))
    (newOrderID now : Nat) (req' : CreateOrderRequest) (inv' : InvState)
    (hval : validateOrderData req = .ok req')
    (hres : reserveItems st.inv req'.warehouse (processOrderItems req'.items).1 =
      (inv', none)) :
    CreateOrder st req taxCalc shippingCalc (some false) newOrderID now =
      (.error .paymentFailed, { st with inv := inv' }) := by
  unfold CreateOrder
  rw [hval]
  dsimp only
  rw [hres]

/-- Concrete system state for the C2 counterexample: one product with free
stock. -/
def c2State : SysState :=
  { inv := { rows := [((1, "W"), { quantity := 5, reserved := 0 })], ledger := [] },
    orders := [], orderItems := [] }

/-- Concrete request for the C2 counterexample. -/
def c2Request : CreateOrderRequest :=
  { items := [{ productID := some 1, unitPrice := 1, quantity := 2 }],
    warehouse := "W", currency := "USD" }

/-- C2 counterexample: with the payment collaborator failing, `CreateOrder`
returns the payment error and persists no order, but the final state does
not equal the pre-call state: product 1's reserved count is 2 instead of 0
and a `reserve` ledger entry was added — the claimed full rollback of
reservations does not happen. -/
theorem createOrder_payment_failure_counterexample :
    (CreateOrder c2State c2Request none none (some false) 9 0).1 =
      .error .paymentFailed ∧
    (CreateOrder c2State c2Request none none (some false) 9 0).2.orders =
      c2State.orders ∧
    (CreateOrder c2State c2Request none none (some false) 9 0).2.inv ≠ c2State.inv ∧
    lookupRow (CreateOrder c2State c2Request none none (some false) 9 0).2.inv.rows
      (1, "W") = some { quantity := 5, reserved := 2 } ∧
    (CreateOrder c2State c2Request none none (some false) 9 0).2.inv.ledger =
      [{ key := (1, "W"), change := -2, reason := "reserve" }] := by
  refine ⟨?_, ?_, ?_, ?_, ?_⟩ <;> decide

/-- Witness for `createOrder_payment_failure_keeps_reservations` at the
concrete C2 state. -/
theorem createOrder_payment_failure_keeps_reservations_witness :
    (validateOrderData c2Request = .ok c2Request ∧
     reserveItems c2State.inv c2Request.warehouse
        (processOrderItems c2Request.items).1 =
      ({ rows := [((1, "W"), { quantity := 5, reserved := 2 })],
         ledger := [{ key := (1, "W"), change := -2, reason := "reserve" }] },
       none)) ∧
    CreateOrder c2State c2Request none none (some false) 9 0 =
      (.error .paymentFailed,
       { c2State with
           inv := { rows := [((1, "W"), { quantity := 5, reserved := 2 })],
                    ledger := [{ key := (1, "W"), change := -2,
                                 reason := "reserve" }] } }) :=
  ⟨⟨by decide, by decide⟩,
   createOrder_payment_failure_keeps_reservations c2State c2Request none none 9 0
     c2Request _ (by decide) (by decide)⟩

/-- On any successful `CreateOrder`, the returned order was built from the
validated request: its currency is the validated request's currency, its
subtotal is the `processOrderItems` accumulator, and its total is
`subtotal + tax + shipping` by construction. -/
theorem createOrder_ok_fields
    {st : SysState} {req : CreateOrderRequest}
    {taxCalc shippingCalc : Option (Except Unit ℚ)} {payment : Option Bool}
    {newOrderID now : Nat} {ord : Order} {st' : SysState}
    (hok : CreateOrder st req taxCalc shippingCalc payment newOrderID now =
      (.ok ord, st')) :
    ∃ req', validateOrderData req = .ok req' ∧
      ord.currency = req'.currency ∧
      ord.subtotal = (processOrderItems req'.items).2 ∧
      ord.total = ord.subtotal + ord.tax + ord.shipping := by
  unfold CreateOrder at hok
  cases hval : validateOrderData req with
  | error e =>
    rw [hval] at hok
    simp at hok
  | ok req' =>
    rw [hval] at hok
    dsimp only at hok
    rcases hres : reserveItems st.inv req'.warehouse (processOrderItems req'.items).1
      with ⟨inv2, eopt⟩
    rw [hres] at hok
    cases eopt with
    | some e =>
      simp at hok
    | none =>
      refine ⟨req', rfl, ?_⟩
      cases payment with
      | none =>
        dsimp only at hok
        injection hok with h1 h2
        injection h1 with h3
        subst h3
        exact ⟨rfl, rfl, rfl⟩
      | some b =>
        cases b with
        | false =>
          simp at hok
        | true =>
          dsimp only at hok
          injection hok with h1 h2
          injection h1 with h3
          subst h3
          exact ⟨rfl, rfl, rfl⟩

/-- Empty system state for the spec's end-to-end pricing scenario. -/
def demoState : SysState :=
  { inv := { rows := [], ledger := [] }, orders := [], orderItems := [] }

/-- The spec §8 end-to-end request: items `[{qty 3, price 10.00},
{qty 1, price 25.00}]`, warehouse `"WH1"`, currency `"USD"`; both pricing
collaborators unavailable, no payment service. -/
def demoRequest : CreateOrderRequest :=
  { items := [{ sku := some "SKU-A", unitPrice := 10, quantity := 3 },
              { sku := some "SKU-B", unitPrice := 25, quantity := 1 }],
    warehouse := "WH1", currency := "USD" }

/-- The order the spec expects for `demoRequest`: subtotal 55.00, tax 4.40,
shipping 9.99, total 69.39, status CREATED, version 1. -/
def demoOrder : Order :=
  { id := 1, status := "CREATED", subtotal := 55, tax := 440 / 100,
    shipping := 999 / 100, total := 6939 / 100, currency := "USD",
    warehouse := "WH1", version := 1, createdAt := 0, updatedAt := 0 }

/-- The final state of the spec §8 end-to-end scenario. -/
def demoFinalState : SysState :=
  { inv := { rows := [], ledger := [] }, orders := [demoOrder],
    orderItems :=
      (processOrderItems demoRequest.items).1.map (fun it => { it with orderID := 1 }) }

theorem demo_createOrder_eq :
    CreateOrder demoState demoRequest none none none 1 0 =
      (.ok demoOrder, demoFinalState) := by
  have hval : validateOrderData demoRequest = .ok demoRequest := by decide
  have hres : reserveItems demoState.inv demoRequest.warehouse
      (processOrderItems demoRequest.items).1 =
      ({ rows := [], ledger := [] }, none) := by decide
  unfold CreateOrder
  rw [hval]
  dsimp only
  rw [hres]
  dsimp only
  simp only [Prod.mk.injEq, Except.ok.injEq, demoFinalState, demoOrder, demoState,
    Order.mk.injEq, SysState.mk.injEq]
  norm_num [processOrderItems, calculateTax, calculateShipping, StatusCreated,
    demoRequest]

/-- C8: for every successful `CreateOrder`, the order's subtotal is the sum
over the request's items of `unit_price * quantity` and its total is
`subtotal + tax + shipping`, in exact `ℚ` arithmetic; and the spec's concrete
scenario (`demoRequest` with fallback tax 8% and fallback shipping 9.99)
yields exactly subtotal 55.00, tax 4.40, shipping 9.99, total 69.39, status
CREATED, version 1. -/
theorem order_totals :
    (∀ st req taxCalc shippingCalc payment newOrderID now ord st',
      CreateOrder st req taxCalc shippingCalc payment newOrderID now =
        (.ok ord, st') →
      ord.subtotal =
        (req.items.map (fun it => it.unitPrice * (it.quantity : ℚ))).sum ∧
      ord.total = ord.subtotal + ord.tax + ord.shipping) ∧
    (CreateOrder demoState demoRequest none none none 1 0).1 = .ok demoOrder := by
  constructor
  · intro st req taxCalc shippingCalc payment newOrderID now ord st' hok
    obtain ⟨req', hval, -, hsub, htot⟩ := createOrder_ok_fields hok
    obtain ⟨-, hitems, -, -, -, -⟩ := validateOrderData_ok hval
    refine ⟨?_, htot⟩
    rw [hsub]
    simp only [processOrderItems]
    rw [foldl_add_eq_sum, hitems, zero_add]
  · rw [demo_createOrder_eq]

/-- Witness for the quantified part of `order_totals`, at the spec's concrete
scenario. -/
theorem order_totals_witness :
    (CreateOrder demoState demoRequest none none none 1 0 =
      (.ok demoOrder, demoFinalState)) ∧
    (demoOrder.subtotal =
      (demoRequest.items.map (fun it => it.unitPrice * (it.quantity : ℚ))).sum ∧
     demoOrder.total = demoOrder.subtotal + demoOrder.tax + demoOrder.shipping) :=
  ⟨demo_createOrder_eq,
   order_totals.1 demoState demoRequest none none none 1 0 demoOrder demoFinalState
     demo_createOrder_eq⟩

/-- C10: a request whose currency is empty is not rejected for that reason:
validation still rejects an empty item list, an empty warehouse, and bad
items exactly as otherwise, and when it passes it returns the request with
the currency silently replaced by `"USD"`; a successful `CreateOrder` on such
a request creates the order with currency `"USD"`. -/
theorem currency_defaulting (req : CreateOrderRequest) (hcur : req.currency = "") :
    (req.items.length = 0 → validateOrderData req = .error .emptyOrderItems) ∧
    (req.items.length ≠ 0 → req.warehouse = "" →
      validateOrderData req = .error .invalidWarehouse) ∧
    (∀ req', validateOrderData req = .ok req' →
      req' = { req with currency := "USD" } ∧
      req.warehouse ≠ "" ∧
      ∀ item ∈ req.items, ¬ item.quantity ≤ 0 ∧ ¬ item.unitPrice ≤ 0 ∧
        ¬ (item.productID = none ∧ (item.sku = none ∨ item.sku = some ""))) ∧
    (∀ st taxCalc shippingCalc payment newOrderID now ord st',
      CreateOrder st req taxCalc shippingCalc payment newOrderID now =
        (.ok ord, st') →
      ord.currency = "USD") := by
  refine ⟨?_, ?_, ?_, ?_⟩
  · intro hlen
    simp only [validateOrderData]
    rw [if_pos hlen]
  · intro hlen hw
    simp only [validateOrderData]
    rw [if_neg hlen, if_pos hcur]
    dsimp only
    rw [if_pos hw]
  · intro req' hok
    obtain ⟨hreq, -, -, -, hw, hitems⟩ := validateOrderData_ok hok
    rw [if_pos hcur] at hreq
    exact ⟨hreq, hw, validateItems_ok hitems⟩
  · intro st taxCalc shippingCalc payment newOrderID now ord st' hok
    obtain ⟨req', hval, hcurr, -, -⟩ := createOrder_ok_fields hok
    obtain ⟨hreq, -, -, -, -, -⟩ := validateOrderData_ok hval
    rw [if_pos hcur] at hreq
    rw [hcurr, hreq]

/-- Witness for `currency_defaulting`: a request identical to the C2 one but
with empty currency; validation succeeds and the created order carries
currency `"USD"`. -/
theorem currency_defaulting_witness :
    (({ items := [{ productID := some 1, unitPrice := 1, quantity := 2 }],
        warehouse := "W", currency := "" } : CreateOrderRequest).currency = "") ∧
    (∀ req', validateOrderData
        { items := [{ productID := some 1, unitPrice := 1, quantity := 2 }],
          warehouse := "W", currency := "" } = .ok req' →
      req' = { ({ items := [{ productID := some 1, unitPrice := 1, quantity := 2 }],
                  warehouse := "W", currency := "" } : CreateOrderRequest) with
                 currency := "USD" } ∧
      ({ items := [{ productID := some 1, unitPrice := 1, quantity := 2 }],
         warehouse := "W", currency := "" } : CreateOrderRequest).warehouse ≠ "" ∧
      ∀ item ∈ ({ items := [{ productID := some 1, unitPrice := 1, quantity := 2 }],
                  warehouse := "W", currency := "" } : CreateOrderRequest).items,
        ¬ item.quantity ≤ 0 ∧ ¬ item.unitPrice ≤ 0 ∧
        ¬ (item.productID = none ∧ (item.sku = none ∨ item.sku = some ""))) :=
  ⟨rfl,
   (currency_defaulting
     { items := [{ productID := some 1, unitPrice := 1, quantity := 2 }],
       warehouse := "W", currency := "" } rfl).2.2.1⟩

/-! ## Cancellation and bulk status updates -/

/-- SQL `SELECT ... FROM order_items WHERE order_id=$1`: the items belonging to
an order, as fetched by `repo.GetOrder`. -/
def itemsOfOrder (items : List OrderItem) (id : Nat) : List OrderItem :=
  items.filter (fun it => decide (it.orderID = id))

/-- The inventory-release loop of `service.CancelOrder` (`service.go` lines
281–290): each `Release` runs and commits in the inventory service's own
transaction; a `Release` error is only logged (`s.log.Error`) and the loop
continues with the inventory unchanged by that item. Items without a product
reference are skipped. -/
def releaseItems (inv : InvState) (warehouse : String) :
    List OrderItem → InvState
  | [] => inv
  | item :: rest =>
    match item.productID with
    | none => releaseItems inv warehouse rest
    | some pid =>
      match Release inv pid item.quantity warehouse with
      | .error _ => releaseItems inv warehouse rest
      | .ok inv2 => releaseItems inv2 warehouse rest

/-- Go `service.CancelOrder` (`service.go` lines 255–306): fetch the order and
its items (missing → not-found); reject when not cancellable; release each
item's reservation (committed per item by the inventory service); then run
the guarded transition to CANCELLED inside the orchestrator's transaction.
The orchestrator's transaction covers only the status write, so on a version
conflict the already-committed releases remain in the final state. -/
def CancelOrder (st : SysState) (id : Nat) (version : Int) (now : Nat) :
    Except OrdersErr Unit × SysState :=
  match getOrderRow st.orders id with
  | none => (.error .orderNotFound, st)
  | some order =>
    if ! IsCancellable order.status then
      (.error .cannotCancelOrder, st)
    else
      let inv' := releaseItems st.inv order.warehouse (itemsOfOrder st.orderItems id)
      match UpdateOrderStatusTx st.orders id StatusCancelled version now with
      | .error _ => (.error .versionConflict, { st with inv := inv' })
      | .ok orders' => (.ok (), { st with inv := inv', orders := orders' })

/-- C9 (amended): when the guarded transition to CANCELLED fails with a
version conflict, `CancelOrder` leaves the order row unchanged, but the
per-item inventory releases performed earlier in the same call are **not**
rolled back: the final inventory is the post-release state, ledger entries
included. -/
theorem cancelOrder_conflict_keeps_releases
    (st : SysState) (id : Nat) (version : Int) (now : Nat) (o : Order)
    (hnd : (st.orders.map Order.id).Nodup)
    (hget : getOrderRow st.orders id = some o)
    (hcancellable : IsCancellable o.status = true)
    (hver : o.version ≠ version) :
    CancelOrder st id version now =
      (.error .versionConflict,
       { st with
           inv := releaseItems st.inv o.warehouse (itemsOfOrder st.orderItems id) }) := by
  obtain ⟨hmem, hid⟩ := getOrderRow_mem hget
  have haff : st.orders.countP (fun x => decide (x.id = id ∧ x.version = version)) = 0 := by
    rw [List.countP_eq_zero]
    intro x hx hpx
    obtain ⟨hxid, hxver⟩ := of_decide_eq_true hpx
    have hxo : x = o := eq_of_nodup_ids hnd hx hmem (hxid.trans hid.symm)
    exact hver (hxo ▸ hxver)
  have htx : UpdateOrderStatusTx st.orders id StatusCancelled version now =
      .error .versionConflict := by
    simp only [UpdateOrderStatusTx]
    rw [if_pos haff]
  simp [CancelOrder, hget, hcancellable, htx]

/-- Concrete state for the C9 counterexample: one cancellable order at
version 1 with one reserved item. -/
def c9State : SysState :=
  { inv := { rows := [((1, "W"), { quantity := 5, reserved := 1 })], ledger := [] },
    orders := [{ id := 1, status := "CREATED", version := 1, warehouse := "W" }],
    orderItems := [{ orderID := 1, productID := some 1, unitPrice := 1,
                     quantity := 1, lineTotal := 1 }] }

/-- C9 counterexample: `CancelOrder` with a stale version fails with
`VersionConflict` and leaves the order row as it was, yet the final inventory
is *not* the pre-call inventory: product 1's reserved count dropped from 1 to
0 and a `release` ledger entry was appended — the claimed atomic rollback of
the partial work does not happen. -/
theorem cancelOrder_counterexample :
    (CancelOrder c9State 1 2 0).1 = .error .versionConflict ∧
    lookupRow c9State.inv.rows (1, "W") = some { quantity := 5, reserved := 1 } ∧
    lookupRow (CancelOrder c9State 1 2 0).2.inv.rows (1, "W") =
      some { quantity := 5, reserved := 0 } ∧
    (CancelOrder c9State 1 2 0).2.inv.ledger =
      [{ key := (1, "W"), change := 1, reason := "release" }] ∧
    (CancelOrder c9State 1 2 0).2.orders = c9State.orders := by
  refine ⟨?_, ?_, ?_, ?_, ?_⟩ <;> decide

/-- Witness for `cancelOrder_conflict_keeps_releases` at the concrete C9
state. -/
theorem cancelOrder_conflict_keeps_releases_witness :
    ((c9State.orders.map Order.id).Nodup ∧
     getOrderRow c9State.orders 1 =
       some { id := 1, status := "CREATED", version := 1, warehouse := "W" } ∧
     IsCancellable "CREATED" = true ∧ (1 : Int) ≠ 2) ∧
    CancelOrder c9State 1 2 0 =
      (.error .versionConflict,
       { c9State with
           inv := releaseItems c9State.inv "W" (itemsOfOrder c9State.orderItems 1) }) :=
  ⟨⟨by decide, by decide, by decide, by decide⟩,
   cancelOrder_conflict_keeps_releases c9State 1 2 0
     { id := 1, status := "CREATED", version := 1, warehouse := "W" }
     (by decide) (by decide) (by decide) (by decide)⟩

/-- Modelled from the spec: the implementation of
`Repository.BulkUpdateOrderStatus` is not in the source tree — only its
declaration in `src/src/Orders/internal/service/interface.go` and its caller
`service.BulkUpdateOrderStatus` are. Per the spec's persisted-state layout
(§6, an orders table keyed by id), the bulk write it names is modelled as
setting the status of every order whose id is listed. -/
def repoBulkUpdateOrderStatus (orders : List Order) (ids : List Nat)
    (status : String) : List Order :=
  orders.map (fun o => if o.id ∈ ids then { o with status := status } else o)

/-- Go `service.BulkUpdateOrderStatus` (`service.go` lines 465–496): an empty id
list is a no-op; the per-order validation loop fetches each order (a missing
order is skipped) and, when `CanTransitionTo` fails, only *logs a warning*
(`s.log.Warn`, lines 481–486) — it neither filters the id out nor aborts —
and the repository bulk write then runs on the full id list. -/
def BulkUpdateOrderStatus (st : SysState) (orderIDs : List Nat) (status : String) :
    Except OrdersErr Unit × SysState :=
  if orderIDs.length = 0 then (.ok (), st)
  else
    (.ok (), { st with orders := repoBulkUpdateOrderStatus st.orders orderIDs status })

/-- C7 (amended): `UpdateOrderStatus` does validate transitions before
persisting, but `BulkUpdateOrderStatus` does not: for every listed existing
order the target status is persisted even when the transition table forbids
the change from that order's current status. -/
theorem bulk_update_persists_forbidden_transitions
    (st : SysState) (orderIDs : List Nat) (status : String) (o : Order)
    (hne : orderIDs.length ≠ 0) (hmem : o ∈ st.orders) (hid : o.id ∈ orderIDs)
    (hforbidden : CanTransitionTo o.status status = false) :
    (BulkUpdateOrderStatus st orderIDs status).1 = .ok () ∧
    { o with status := status } ∈ (BulkUpdateOrderStatus st orderIDs status).2.orders := by
  unfold BulkUpdateOrderStatus
  rw [if_neg hne]
  refine ⟨rfl, ?_⟩
  dsimp only
  unfold repoBulkUpdateOrderStatus
  have hfo : ({ o with status := status } : Order) =
      (fun o : Order => if o.id ∈ orderIDs then { o with status := status } else o) o := by
    simp [hid]
  rw [hfo]
  exact List.mem_map_of_mem _ hmem

/-- Concrete state for the C7 counterexample: a single CANCELLED order. -/
def c7State : SysState :=
  { inv := { rows := [], ledger := [] },
    orders := [{ id := 1, status := "CANCELLED", version := 1 }], orderItems := [] }

/-- C7 counterexample: the transition CANCELLED → PROCESSING is forbidden by
the table, yet `BulkUpdateOrderStatus` persists it: afterwards order 1 has
status PROCESSING. -/
theorem bulk_update_counterexample :
    CanTransitionTo "CANCELLED" "PROCESSING" = false ∧
    (BulkUpdateOrderStatus c7State [1] "PROCESSING").1 = .ok () ∧
    getOrderRow (BulkUpdateOrderStatus c7State [1] "PROCESSING").2.orders 1 =
      some { id := 1, status := "PROCESSING", version := 1 } := by
  refine ⟨?_, ?_, ?_⟩ <;> decide

/-- Witness for `bulk_update_persists_forbidden_transitions` at the concrete
C7 state. -/
theorem bulk_update_persists_forbidden_transitions_witness :
    (([1] : List Nat).length ≠ 0 ∧
     ({ id := 1, status := "CANCELLED", version := 1 } : Order) ∈ c7State.orders ∧
     (1 : Nat) ∈ [1] ∧ CanTransitionTo "CANCELLED" "PROCESSING" = false) ∧
    ((BulkUpdateOrderStatus c7State [1] "PROCESSING").1 = .ok () ∧
     { ({ id := 1, status := "CANCELLED", version := 1 } : Order) with
         status := "PROCESSING" } ∈
       (BulkUpdateOrderStatus c7State [1] "PROCESSING").2.orders) :=
  ⟨⟨by decide, by decide, by decide, by decide⟩,
   bulk_update_persists_forbidden_transitions c7State [1] "PROCESSING"
     { id := 1, status := "CANCELLED", version := 1 }
     (by decide) (by decide) (by decide) (by decide)⟩

end Savannah
